import Mathlib

/-!
Shallow embedding of `src/authFlow.ts` (DailyUse auth/onboarding flow).

The Firestore document store is modelled as an association list from uids
to profile records inside the single configured collection.  The server
timestamp primitive is modelled as an explicit `now : Nat` argument.
`updateDoc` fails when the target record is absent, so the two patching
operations return `Option`.  The stored `onboardingStatus` is modelled as
a `String`: the TypeScript read is an unchecked cast, and `handleLogin`
itself has a defensive default branch for unrecognized status values.
-/

namespace AuthFlow

/-- `AppUserProfile` from authFlow.ts.  `createdAt` / `updatedAt` are
server timestamps, modelled as optional naturals. -/
structure AppUserProfile where
  uid : String
  email : Option String
  displayName : Option String
  designation : Option String
  isAdmin : Bool
  onboardingStatus : String
  createdAt : Option Nat
  updatedAt : Option Nat
deriving DecidableEq, Repr

/-- `FirebaseUser` from authFlow.ts. -/
structure FirebaseUser where
  uid : String
  email : Option String
  displayName : Option String
deriving DecidableEq, Repr

/-- `LoginDecision` from authFlow.ts; the destination and message are the
string literals used by the code. -/
inductive LoginDecision where
  | redirect (destination : String)
  | error (message : String)
deriving DecidableEq, Repr

/-- The users collection: one record per uid key. -/
abbrev UserStore := List (String × AppUserProfile)

/-- `getUserProfile`: `getDoc` followed by the existence check. -/
def getUserProfile (store : UserStore) (uid : String) : Option AppUserProfile :=
  (store.find? (fun e => e.1 == uid)).map (fun e => e.2)

/-- `setDoc`: unconditional overwrite of the record at the given key
(the new binding shadows any older one under `getUserProfile`). -/
def setDoc (store : UserStore) (uid : String) (profile : AppUserProfile) : UserStore :=
  (uid, profile) :: store

/-- `bootstrapNewUser`: builds the default profile and writes it with
`setDoc`; returns the profile together with the updated store. -/
def bootstrapNewUser (store : UserStore) (now : Nat) (user : FirebaseUser) :
    AppUserProfile × UserStore :=
  let profile : AppUserProfile :=
    { uid := user.uid
      email := user.email
      displayName := user.displayName
      designation := none
      isAdmin := false
      onboardingStatus := "pending_profile"
      createdAt := some now
      updatedAt := some now }
  (profile, setDoc store user.uid profile)

/-- The `additionalData` parameter of `completeWelcomeStep`.  Its
TypeScript type omits `uid`, `isAdmin` and `onboardingStatus`, so only the
remaining profile fields can be present.  The outer `Option` records
whether the key is present in the object; the inner `Option` is the
nullable value. -/
structure AdditionalData where
  email : Option (Option String)
  displayName : Option (Option String)
  designation : Option (Option String)
  createdAt : Option (Option Nat)
  updatedAt : Option (Option Nat)
deriving DecidableEq, Repr

/-- The empty `additionalData` object (the parameter's default value). -/
def noAdditionalData : AdditionalData := ⟨none, none, none, none, none⟩

/-- The update object of `completeWelcomeStep` merged into an existing
record: `designation`, `onboardingStatus` and `updatedAt` are written
first, then `...additionalData` is spread, so keys present in
`additionalData` win over the earlier ones. -/
def applyWelcomePatch (r : AppUserProfile) (designation : String) (now : Nat)
    (additionalData : AdditionalData) : AppUserProfile :=
  { r with
    designation := additionalData.designation.getD (some designation)
    onboardingStatus := "pending_admin_approval"
    updatedAt := additionalData.updatedAt.getD (some now)
    email := additionalData.email.getD r.email
    displayName := additionalData.displayName.getD r.displayName
    createdAt := additionalData.createdAt.getD r.createdAt }

/-- `completeWelcomeStep`: `updateDoc` with the spread update object;
fails (returns `none`) when the record is absent, as `updateDoc` does. -/
def completeWelcomeStep (store : UserStore) (now : Nat) (uid : String)
    (designation : String) (additionalData : AdditionalData) : Option UserStore :=
  match getUserProfile store uid with
  | none => none
  | some r => some (setDoc store uid (applyWelcomePatch r designation now additionalData))

/-- `approveUser`: `updateDoc` writing `onboardingStatus: 'active'` and a
fresh `updatedAt`; fails when the record is absent. -/
def approveUser (store : UserStore) (now : Nat) (uid : String) : Option UserStore :=
  match getUserProfile store uid with
  | none => none
  | some r =>
      some (setDoc store uid { r with onboardingStatus := "active", updatedAt := some now })

/-- `handleLogin`: the routing decision, returned together with the
resulting store (the only write is the lazy creation). -/
def handleLogin (store : UserStore) (now : Nat) (user : FirebaseUser) :
    LoginDecision × UserStore :=
  if user.uid = "" then
    (.error "Missing Firebase user data.", store)
  else
    match getUserProfile store user.uid with
    | none => (.redirect "welcome", (bootstrapNewUser store now user).2)
    | some profile =>
        if profile.isAdmin then
          (.redirect "admin", store)
        else
          match profile.onboardingStatus with
          | "pending_profile" => (.redirect "welcome", store)
          | "pending_admin_approval" => (.error "Awaiting admin approval.", store)
          | "active" => (.redirect "dashboard", store)
          | _ => (.error "Invalid onboarding status.", store)

/-- One externally triggered operation of the core. -/
inductive Op where
  | login (now : Nat) (user : FirebaseUser)
  | welcome (now : Nat) (uid : String) (designation : String) (additionalData : AdditionalData)
  | approve (now : Nat) (uid : String)
deriving DecidableEq, Repr

/-- Apply one operation to the store; a failed `updateDoc` leaves the
store unchanged (the fault propagates to the caller without a write). -/
def applyOp (store : UserStore) : Op → UserStore
  | .login now user => (handleLogin store now user).2
  | .welcome now uid d ad => (completeWelcomeStep store now uid d ad).getD store
  | .approve now uid => (approveUser store now uid).getD store

/-- Run a sequence of operations from the empty store. -/
def runOps (ops : List Op) : UserStore := ops.foldl applyOp []

/-- Position of a status value along the onboarding chain. -/
def statusRank : String → Nat
  | "pending_admin_approval" => 1
  | "active" => 2
  | _ => 0

/-- The designation/status invariant claimed by the spec. -/
def DesignationInv (r : AppUserProfile) : Prop :=
  r.designation = none → r.onboardingStatus = "pending_profile"

/- Concrete fixtures used by counterexamples and witnesses. -/

/-- A fresh non-admin profile as created on first login at time 0. -/
def demoProfile : AppUserProfile :=
  { uid := "u1", email := none, displayName := none, designation := none,
    isAdmin := false, onboardingStatus := "pending_profile",
    createdAt := some 0, updatedAt := some 0 }

/-- A one-record store holding `demoProfile`. -/
def demoStore : UserStore := [("u1", demoProfile)]

/-- An `additionalData` object that itself carries a `designation` key. -/
def adOverride : AdditionalData := ⟨none, none, some (some "other"), none, none⟩

/-- The identity whose uid matches `demoProfile`. -/
def demoUser : FirebaseUser := ⟨"u1", none, none⟩

/-- An admin record whose stored status is an unrecognized string. -/
def garbageAdmin : AppUserProfile :=
  { demoProfile with uid := "a1", isAdmin := true, onboardingStatus := "garbage" }

/-- A non-admin record whose stored status is an unrecognized string. -/
def weirdProfile : AppUserProfile := { demoProfile with onboardingStatus := "weird" }

/-- A one-record store holding `weirdProfile`. -/
def weirdStore : UserStore := [("u1", weirdProfile)]

/- Store-level helper lemmas. -/

theorem getUserProfile_setDoc_self (store : UserStore) (uid : String) (p : AppUserProfile) :
    getUserProfile (setDoc store uid p) uid = some p := by
  simp [getUserProfile, setDoc, List.find?]

theorem getUserProfile_setDoc_other (store : UserStore) (uid other : String)
    (p : AppUserProfile) (h : other ≠ uid) :
    getUserProfile (setDoc store uid p) other = getUserProfile store other := by
  have hne : (uid == other) = false := beq_false_of_ne (fun hc => h hc.symm)
  simp [getUserProfile, setDoc, List.find?, hne]

/- Claim theorems. -/

/-- C8: for an identity whose uid is empty, `handleLogin` returns the
missing-identity-data error as a normal value and leaves the store
unchanged. -/
theorem handleLogin_missing_uid (store : UserStore) (now : Nat) (user : FirebaseUser)
    (hu : user.uid = "") :
    handleLogin store now user = (.error "Missing Firebase user data.", store) := by
  simp [handleLogin, hu]

/-- Witness for C8 at a concrete empty-uid identity. -/
theorem handleLogin_missing_uid_witness :
    handleLogin demoStore 7 ⟨"", some "x@y", none⟩ =
      (.error "Missing Firebase user data.", demoStore) :=
  handleLogin_missing_uid demoStore 7 ⟨"", some "x@y", none⟩ rfl

/-- C5: for any existing record with `isAdmin = true`, `handleLogin`
returns the redirect-to-admin decision (with no store write) regardless of
the record's `onboardingStatus`, including unrecognized values: the status
field is completely unconstrained here. -/
theorem handleLogin_admin_redirect (store : UserStore) (now : Nat)
    (user : FirebaseUser) (r : AppUserProfile)
    (hu : user.uid ≠ "")
    (h : getUserProfile store user.uid = some r)
    (ha : r.isAdmin = true) :
    handleLogin store now user = (.redirect "admin", store) := by
  simp [handleLogin, hu, h, ha]

/-- Witness for C5: an admin record whose status is the unrecognized
string "garbage" is still routed to admin. -/
theorem handleLogin_admin_redirect_witness :
    handleLogin [("a1", garbageAdmin)] 3 ⟨"a1", none, none⟩ =
      (.redirect "admin", [("a1", garbageAdmin)]) :=
  handleLogin_admin_redirect [("a1", garbageAdmin)] 3 ⟨"a1", none, none⟩ garbageAdmin
    (by decide) (by decide) rfl

/-- C6: for an identity with a non-empty uid and no existing record,
`handleLogin` returns redirect-to-welcome and writes exactly one record:
the default profile with `isAdmin = false`, status `pending_profile`,
`designation = none`, email and displayName copied from the identity;
lookups at every other key are unchanged. -/
theorem handleLogin_creates_default (store : UserStore) (now : Nat) (user : FirebaseUser)
    (hu : user.uid ≠ "") (h : getUserProfile store user.uid = none) :
    (handleLogin store now user).1 = .redirect "welcome" ∧
    getUserProfile (handleLogin store now user).2 user.uid = some
      { uid := user.uid, email := user.email, displayName := user.displayName,
        designation := none, isAdmin := false, onboardingStatus := "pending_profile",
        createdAt := some now, updatedAt := some now } ∧
    ∀ other, other ≠ user.uid →
      getUserProfile (handleLogin store now user).2 other = getUserProfile store other := by
  have hlogin : handleLogin store now user =
      (.redirect "welcome", (bootstrapNewUser store now user).2) := by
    simp [handleLogin, hu, h]
  refine ⟨by rw [hlogin], ?_, ?_⟩
  · rw [hlogin]
    exact getUserProfile_setDoc_self store user.uid _
  · intro other hother
    rw [hlogin]
    exact getUserProfile_setDoc_other store user.uid other _ hother

/-- Witness for C6 at a fresh uid over the empty store. -/
theorem handleLogin_creates_default_witness :
    (handleLogin [] 4 ⟨"n1", some "n@x", some "N"⟩).1 = .redirect "welcome" ∧
    getUserProfile (handleLogin [] 4 ⟨"n1", some "n@x", some "N"⟩).2 "n1" = some
      { uid := "n1", email := some "n@x", displayName := some "N",
        designation := none, isAdmin := false, onboardingStatus := "pending_profile",
        createdAt := some 4, updatedAt := some 4 } ∧
    ∀ other, other ≠ "n1" →
      getUserProfile (handleLogin [] 4 ⟨"n1", some "n@x", some "N"⟩).2 other =
        getUserProfile [] other :=
  handleLogin_creates_default [] 4 ⟨"n1", some "n@x", some "N"⟩ (by decide) rfl

/-- C7: for an existing non-admin record, `handleLogin` branches on the
stored status: `pending_profile` redirects to welcome,
`pending_admin_approval` yields the awaiting-approval error, `active`
redirects to dashboard, and any other value yields the invalid-status
error; in each branch the returned store is the input store (no write). -/
theorem handleLogin_nonadmin_branches (store : UserStore) (now : Nat)
    (user : FirebaseUser) (r : AppUserProfile)
    (hu : user.uid ≠ "")
    (h : getUserProfile store user.uid = some r)
    (ha : r.isAdmin = false) :
    (r.onboardingStatus = "pending_profile" →
      handleLogin store now user = (.redirect "welcome", store)) ∧
    (r.onboardingStatus = "pending_admin_approval" →
      handleLogin store now user = (.error "Awaiting admin approval.", store)) ∧
    (r.onboardingStatus = "active" →
      handleLogin store now user = (.redirect "dashboard", store)) ∧
    (r.onboardingStatus ≠ "pending_profile" →
      r.onboardingStatus ≠ "pending_admin_approval" →
      r.onboardingStatus ≠ "active" →
      handleLogin store now user = (.error "Invalid onboarding status.", store)) := by
  have hmain : handleLogin store now user =
      match r.onboardingStatus with
      | "pending_profile" => ((LoginDecision.redirect "welcome"), store)
      | "pending_admin_approval" => (.error "Awaiting admin approval.", store)
      | "active" => (.redirect "dashboard", store)
      | _ => (.error "Invalid onboarding status.", store) := by
    unfold handleLogin
    rw [if_neg hu, h]
    simp only [ha, Bool.false_eq_true, if_false]
  refine ⟨fun hs => ?_, fun hs => ?_, fun hs => ?_, fun h1 h2 h3 => ?_⟩ <;> rw [hmain]
  · rw [hs]; rfl
  · rw [hs]; rfl
  · rw [hs]; rfl
  · split
    · next hs => exact absurd hs h1
    · next hs => exact absurd hs h2
    · next hs => exact absurd hs h3
    · rfl

/-- Witness for C7: a non-admin record in each of the four status classes
produces the corresponding decision, with the store returned unchanged. -/
theorem handleLogin_nonadmin_branches_witness :
    handleLogin demoStore 9 demoUser = (.redirect "welcome", demoStore) ∧
    handleLogin weirdStore 9 demoUser = (.error "Invalid onboarding status.", weirdStore) := by
  constructor
  · exact (handleLogin_nonadmin_branches demoStore 9 demoUser demoProfile
      (by decide) (by decide) (by decide)).1 (by decide)
  · exact (handleLogin_nonadmin_branches weirdStore 9 demoUser weirdProfile
      (by decide) (by decide) (by decide)).2.2.2 (by decide) (by decide) (by decide)

/-- C9: on any existing record, `approveUser` succeeds and writes a record
whose `onboardingStatus` is `active` and whose `updatedAt` is the fresh
timestamp, with every other field (`uid`, `email`, `displayName`,
`designation`, `isAdmin`, `createdAt`) unchanged. -/
theorem approveUser_frame (store : UserStore) (now : Nat) (uid : String)
    (r : AppUserProfile) (h : getUserProfile store uid = some r) :
    ∃ s' r', approveUser store now uid = some s' ∧
      getUserProfile s' uid = some r' ∧
      r'.onboardingStatus = "active" ∧ r'.updatedAt = some now ∧
      r'.uid = r.uid ∧ r'.email = r.email ∧ r'.displayName = r.displayName ∧
      r'.designation = r.designation ∧ r'.isAdmin = r.isAdmin ∧
      r'.createdAt = r.createdAt := by
  refine ⟨setDoc store uid { r with onboardingStatus := "active", updatedAt := some now },
    { r with onboardingStatus := "active", updatedAt := some now }, ?_,
    getUserProfile_setDoc_self store uid _, rfl, rfl, rfl, rfl, rfl, rfl, rfl, rfl⟩
  unfold approveUser
  rw [h]

/-- Witness for C9 on the demo record. -/
theorem approveUser_frame_witness :
    ∃ s' r', approveUser demoStore 6 "u1" = some s' ∧
      getUserProfile s' "u1" = some r' ∧
      r'.onboardingStatus = "active" ∧ r'.updatedAt = some 6 ∧
      r'.uid = demoProfile.uid ∧ r'.email = demoProfile.email ∧
      r'.displayName = demoProfile.displayName ∧
      r'.designation = demoProfile.designation ∧ r'.isAdmin = demoProfile.isAdmin ∧
      r'.createdAt = demoProfile.createdAt :=
  approveUser_frame demoStore 6 "u1" demoProfile (by decide)

/-- C10: when the caller-supplied `additionalData` object itself carries a
`designation` key, the value stored for `designation` is the one from
`additionalData` (the spread merges it after the `designation` argument). -/
theorem completeWelcomeStep_additionalData_designation_wins
    (store : UserStore) (now : Nat) (uid d : String) (v : Option String)
    (ad : AdditionalData) (r : AppUserProfile)
    (h : getUserProfile store uid = some r) (hd : ad.designation = some v) :
    ∃ s' r', completeWelcomeStep store now uid d ad = some s' ∧
      getUserProfile s' uid = some r' ∧ r'.designation = v := by
  refine ⟨setDoc store uid (applyWelcomePatch r d now ad), applyWelcomePatch r d now ad,
    ?_, getUserProfile_setDoc_self store uid _, ?_⟩
  · unfold completeWelcomeStep
    rw [h]
  · simp [applyWelcomePatch, hd]

/-- Witness for C10: `additionalData.designation = some "other"` beats the
argument "engineer". -/
theorem completeWelcomeStep_additionalData_designation_wins_witness :
    ∃ s' r', completeWelcomeStep demoStore 5 "u1" "engineer" adOverride = some s' ∧
      getUserProfile s' "u1" = some r' ∧ r'.designation = some "other" :=
  completeWelcomeStep_additionalData_designation_wins demoStore 5 "u1" "engineer"
    (some "other") adOverride demoProfile (by decide) (by decide)

/-- C1 counterexample: a call in which `additionalData` carries a
`designation` key produces a stored designation different from the
supplied argument "engineer", so the claim that the resulting record
always has the supplied designation is false. -/
theorem completeWelcomeStep_supplied_designation_counterexample :
    ((completeWelcomeStep demoStore 5 "u1" "engineer" adOverride).bind
      (fun s => (getUserProfile s "u1").map (fun r => r.designation))) =
        some (some "other") ∧ some ("other" : String) ≠ some "engineer" := by
  constructor
  · rfl
  · decide

/-- C1 amended: on any existing record, `completeWelcomeStep` forces
`onboardingStatus` to `pending_admin_approval` and leaves `uid` and
`isAdmin` unchanged — `additionalData` cannot carry those keys, its type
omits them — and the stored designation equals the supplied argument
whenever `additionalData` does not itself carry a `designation` key. -/
theorem completeWelcomeStep_protected_fields (store : UserStore) (now : Nat)
    (uid d : String) (ad : AdditionalData) (r : AppUserProfile)
    (h : getUserProfile store uid = some r) :
    ∃ s' r', completeWelcomeStep store now uid d ad = some s' ∧
      getUserProfile s' uid = some r' ∧
      r'.onboardingStatus = "pending_admin_approval" ∧
      r'.uid = r.uid ∧ r'.isAdmin = r.isAdmin ∧
      (ad.designation = none → r'.designation = some d) := by
  refine ⟨setDoc store uid (applyWelcomePatch r d now ad), applyWelcomePatch r d now ad,
    ?_, getUserProfile_setDoc_self store uid _, rfl, rfl, rfl, ?_⟩
  · unfold completeWelcomeStep
    rw [h]
  · intro hnone
    simp [applyWelcomePatch, hnone]

/-- Witness for the amended C1 on the demo record with empty
`additionalData`. -/
theorem completeWelcomeStep_protected_fields_witness :
    ∃ s' r', completeWelcomeStep demoStore 5 "u1" "engineer" noAdditionalData = some s' ∧
      getUserProfile s' "u1" = some r' ∧
      r'.onboardingStatus = "pending_admin_approval" ∧
      r'.uid = demoProfile.uid ∧ r'.isAdmin = demoProfile.isAdmin ∧
      (noAdditionalData.designation = none → r'.designation = some "engineer") :=
  completeWelcomeStep_protected_fields demoStore 5 "u1" "engineer" noAdditionalData
    demoProfile (by decide)

/-- C3 counterexample: `completeWelcomeStep` called with the empty string
as designation still performs the transition: the stored record ends in
`pending_admin_approval` with designation `""`. -/
theorem completeWelcomeStep_empty_designation_counterexample :
    ((completeWelcomeStep demoStore 5 "u1" "" noAdditionalData).bind
      (fun s => (getUserProfile s "u1").map
        (fun r => (r.designation, r.onboardingStatus)))) =
      some (some "", "pending_admin_approval") := by
  rfl

/-- C3 amended: `completeWelcomeStep` does not validate its designation
input: for every designation string, including the empty string, the
transition to `pending_admin_approval` is carried out on any existing
record. -/
theorem completeWelcomeStep_no_validation (store : UserStore) (now : Nat)
    (uid d : String) (ad : AdditionalData) (r : AppUserProfile)
    (h : getUserProfile store uid = some r) :
    ∃ s' r', completeWelcomeStep store now uid d ad = some s' ∧
      getUserProfile s' uid = some r' ∧
      r'.onboardingStatus = "pending_admin_approval" := by
  refine ⟨setDoc store uid (applyWelcomePatch r d now ad), applyWelcomePatch r d now ad,
    ?_, getUserProfile_setDoc_self store uid _, rfl⟩
  unfold completeWelcomeStep
  rw [h]

/-- Witness for the amended C3 with the empty designation. -/
theorem completeWelcomeStep_no_validation_witness :
    ∃ s' r', completeWelcomeStep demoStore 5 "u1" "" noAdditionalData = some s' ∧
      getUserProfile s' "u1" = some r' ∧
      r'.onboardingStatus = "pending_admin_approval" :=
  completeWelcomeStep_no_validation demoStore 5 "u1" "" noAdditionalData demoProfile
    (by decide)

/- Operation-level helper lemmas for the status-ordering and designation
invariants. -/

theorem statusRank_le_two (s : String) : statusRank s ≤ 2 := by
  unfold statusRank
  split <;> omega

theorem statusRank_le_one_of_ne_active (s : String) (h : s ≠ "active") :
    statusRank s ≤ 1 := by
  unfold statusRank
  split
  · omega
  · exact absurd rfl h
  · omega

theorem handleLogin_preserves_existing (store : UserStore) (now : Nat)
    (user : FirebaseUser) (uid : String) (r : AppUserProfile)
    (h : getUserProfile store uid = some r) :
    getUserProfile (handleLogin store now user).2 uid = some r := by
  by_cases hu : user.uid = ""
  · simp [handleLogin, hu, h]
  · cases hl : getUserProfile store user.uid with
    | none =>
        have hne : uid ≠ user.uid := by
          intro hc
          rw [hc, hl] at h
          exact Option.noConfusion h
        have hsnd : (handleLogin store now user).2 = (bootstrapNewUser store now user).2 := by
          simp [handleLogin, hu, hl]
        rw [hsnd]
        unfold bootstrapNewUser
        simpa [getUserProfile_setDoc_other store user.uid uid _ hne] using h
    | some p =>
        have hsnd : (handleLogin store now user).2 = store := by
          unfold handleLogin
          rw [if_neg hu, hl]
          by_cases hA : p.isAdmin = true
          · simp [hA]
          · simp only [Bool.not_eq_true] at hA
            simp only [hA, Bool.false_eq_true, if_false]
            split <;> rfl
        rw [hsnd]
        exact h

theorem applyOp_welcome_lookup (store : UserStore) (now : Nat) (u d : String)
    (ad : AdditionalData) (uid : String) :
    getUserProfile (applyOp store (Op.welcome now u d ad)) uid =
      match getUserProfile store u with
      | none => getUserProfile store uid
      | some p =>
          if uid = u then some (applyWelcomePatch p d now ad)
          else getUserProfile store uid := by
  cases hl : getUserProfile store u with
  | none => simp [applyOp, completeWelcomeStep, hl]
  | some p =>
      simp only [applyOp, completeWelcomeStep, hl, Option.getD_some]
      by_cases he : uid = u
      · subst he
        simp [getUserProfile_setDoc_self]
      · simp [he, getUserProfile_setDoc_other store u uid _ he]

theorem applyOp_approve_lookup (store : UserStore) (now : Nat) (u uid : String) :
    getUserProfile (applyOp store (Op.approve now u)) uid =
      match getUserProfile store u with
      | none => getUserProfile store uid
      | some p =>
          if uid = u then
            some { p with onboardingStatus := "active", updatedAt := some now }
          else getUserProfile store uid := by
  cases hl : getUserProfile store u with
  | none => simp [applyOp, approveUser, hl]
  | some p =>
      simp only [applyOp, approveUser, hl, Option.getD_some]
      by_cases he : uid = u
      · subst he
        simp [getUserProfile_setDoc_self]
      · simp [he, getUserProfile_setDoc_other store u uid _ he]

/-- A pending_admin_approval record with a chosen designation. -/
def engineerProfile : AppUserProfile :=
  { demoProfile with
    designation := some "engineer"
    onboardingStatus := "pending_admin_approval"
    updatedAt := some 5 }

/-- A one-record store holding `engineerProfile`. -/
def engineerStore : UserStore := [("u1", engineerProfile)]

/-- `engineerProfile` after admin approval at time 6. -/
def approvedEngineerProfile : AppUserProfile :=
  { engineerProfile with onboardingStatus := "active", updatedAt := some 6 }

/-- The operation sequence that takes uid "u1" from no record to an
`active` record. -/
def opsToActive : List Op :=
  [Op.login 0 demoUser, Op.welcome 1 "u1" "engineer" noAdditionalData, Op.approve 2 "u1"]

/-- C2 counterexample: from the reachable store in which "u1" is `active`,
a further `completeWelcomeStep` call moves the record back to
`pending_admin_approval`, a strictly lower position on the onboarding
chain — the status is not monotone under this core's operations. -/
theorem status_backward_counterexample :
    (getUserProfile (runOps opsToActive) "u1").map (fun r => r.onboardingStatus) =
      some "active" ∧
    (getUserProfile (applyOp (runOps opsToActive)
        (Op.welcome 3 "u1" "engineer" noAdditionalData)) "u1").map
      (fun r => r.onboardingStatus) = some "pending_admin_approval" ∧
    statusRank "pending_admin_approval" < statusRank "active" := by
  refine ⟨rfl, rfl, by decide⟩

/-- C2 amended: `handleLogin` and `approveUser` never move an existing
record's status backward along the chain, and `completeWelcomeStep` never
does so either except when applied to a record whose status is already
`active` (which it regresses to `pending_admin_approval`). -/
theorem statusRank_no_backward (store : UserStore) (op : Op) (uid : String)
    (r r' : AppUserProfile)
    (h : getUserProfile store uid = some r)
    (h' : getUserProfile (applyOp store op) uid = some r')
    (hw : ∀ now u d ad, op = Op.welcome now u d ad → r.onboardingStatus ≠ "active") :
    statusRank r.onboardingStatus ≤ statusRank r'.onboardingStatus := by
  cases op with
  | login now user =>
      rw [show applyOp store (Op.login now user) = (handleLogin store now user).2 from rfl,
        handleLogin_preserves_existing store now user uid r h] at h'
      cases h'
      exact le_refl _
  | welcome now u d ad =>
      have hne : r.onboardingStatus ≠ "active" := hw now u d ad rfl
      rw [applyOp_welcome_lookup] at h'
      cases hl : getUserProfile store u with
      | none =>
          rw [hl] at h'
          simp only at h'
          rw [h] at h'
          cases h'
          exact le_refl _
      | some p =>
          rw [hl] at h'
          simp only at h'
          by_cases he : uid = u
          · rw [if_pos he] at h'
            cases h'
            calc statusRank r.onboardingStatus
                ≤ 1 := statusRank_le_one_of_ne_active _ hne
              _ = statusRank (applyWelcomePatch p d now ad).onboardingStatus := by rfl
          · rw [if_neg he, h] at h'
            cases h'
            exact le_refl _
  | approve now u =>
      rw [applyOp_approve_lookup] at h'
      cases hl : getUserProfile store u with
      | none =>
          rw [hl] at h'
          simp only at h'
          rw [h] at h'
          cases h'
          exact le_refl _
      | some p =>
          rw [hl] at h'
          simp only at h'
          by_cases he : uid = u
          · rw [if_pos he] at h'
            cases h'
            simpa [statusRank] using statusRank_le_two r.onboardingStatus
          · rw [if_neg he, h] at h'
            cases h'
            exact le_refl _

/-- `demoProfile` as `approveUser` rewrites it at time 1. -/
def activeDemoProfile : AppUserProfile :=
  { demoProfile with onboardingStatus := "active", updatedAt := some 1 }

/-- Witness for the amended C2: approving the pending demo record moves
its rank from 0 to 2. -/
theorem statusRank_no_backward_witness :
    statusRank demoProfile.onboardingStatus ≤
      statusRank activeDemoProfile.onboardingStatus :=
  statusRank_no_backward demoStore (Op.approve 1 "u1") "u1" demoProfile
    activeDemoProfile (by decide) (by decide)
    (fun now u d ad hEq => Op.noConfusion hEq)

/-- C4 counterexample: the store reached by a first login followed
immediately by `approveUser` holds a record with `designation = none` and
`onboardingStatus = "active"`, so the designation/status invariant fails
on a reachable record. -/
theorem designation_invariant_counterexample :
    (getUserProfile (runOps [Op.login 0 demoUser, Op.approve 1 "u1"]) "u1").map
      (fun r => (r.designation, r.onboardingStatus)) = some (none, "active") ∧
    ("active" : String) ≠ "pending_profile" := by
  refine ⟨rfl, by decide⟩

/-- C4 amended: creation establishes the designation/status invariant, and
`completeWelcomeStep` re-establishes it whenever `additionalData` does not
set the designation to null; `approveUser` leaves the designation
unchanged, so it preserves the invariant only on records whose designation
is already non-null — applied to a `pending_profile` record it produces an
`active` record with a null designation. -/
theorem designation_invariant_conditional :
    (∀ store now user, DesignationInv (bootstrapNewUser store now user).1) ∧
    (∀ r d now ad, ad.designation ≠ some none →
      DesignationInv (applyWelcomePatch r d now ad)) ∧
    (∀ store now uid r, getUserProfile store uid = some r → r.designation ≠ none →
      ∀ s' r', approveUser store now uid = some s' → getUserProfile s' uid = some r' →
        DesignationInv r') := by
  refine ⟨?_, ?_, ?_⟩
  · intro store now user _
    rfl
  · intro r d now ad hd hnone
    exfalso
    simp only [applyWelcomePatch] at hnone
    cases hD : ad.designation with
    | none =>
        rw [hD] at hnone
        simp at hnone
    | some v =>
        cases v with
        | none => exact hd hD
        | some s =>
            rw [hD] at hnone
            simp at hnone
  · intro store now uid r h hdes s' r' hap hlook
    unfold approveUser at hap
    rw [h] at hap
    simp only [Option.some.injEq] at hap
    rw [← hap, getUserProfile_setDoc_self] at hlook
    cases hlook
    intro hnone
    exact absurd hnone hdes

/-- Witness for the amended C4 at concrete records: the bootstrap profile,
a welcome patch with empty `additionalData`, and approval of a record with
a non-null designation. -/
theorem designation_invariant_conditional_witness :
    DesignationInv (bootstrapNewUser [] 0 demoUser).1 ∧
    DesignationInv (applyWelcomePatch demoProfile "engineer" 5 noAdditionalData) ∧
    DesignationInv approvedEngineerProfile := by
  refine ⟨designation_invariant_conditional.1 [] 0 demoUser,
    designation_invariant_conditional.2.1 demoProfile "engineer" 5 noAdditionalData
      (by decide),
    designation_invariant_conditional.2.2 engineerStore 6 "u1" engineerProfile
      (by decide) (by decide)
      (setDoc engineerStore "u1" approvedEngineerProfile) approvedEngineerProfile
      rfl (getUserProfile_setDoc_self engineerStore "u1" approvedEngineerProfile)⟩

end AuthFlow
